import Mathlib

/-!
Verification of the scholarship/research-opportunity matching engine.

The definitions below are a shallow embedding of the Python sources
`scholarship_database_loader.py`, `scholarship_research_agent_dynamic.py` and
`research_opportunity_agent.py`: dictionaries with per-key defaults become
total structures, Python floats become `ℚ`, `datetime` values become explicit
date/time-of-day records, and fallible parsing returns `Option`.
-/

/-! ## String helpers (Python `in`, `.lower()`, `.split()`)

All strings appearing in the program's data are ASCII, so `.lower()` is
embedded as ASCII lowercasing.
-/

/-- ASCII lowercasing of one character (Python `str.lower` on ASCII data). -/
def charLower (c : Char) : Char :=
  if 'A' ≤ c ∧ c ≤ 'Z' then Char.ofNat (c.toNat + 32) else c

/-- Python `s.lower()`. -/
def strLower (s : String) : String := ⟨s.data.map charLower⟩

/-- `listStartsWith pre cs` is true when `pre` is a prefix of `cs`. -/
def listStartsWith : List Char → List Char → Bool
  | [], _ => true
  | _ :: _, [] => false
  | c :: cs, d :: ds => c == d && listStartsWith cs ds

/-- `listHasSub needle hay` is true when `needle` occurs contiguously in `hay`. -/
def listHasSub (needle : List Char) : List Char → Bool
  | [] => listStartsWith needle []
  | d :: ds => listStartsWith needle (d :: ds) || listHasSub needle ds

/-- Python `needle in haystack` on strings (raw substring test). -/
def pyIn (needle haystack : String) : Bool :=
  listHasSub needle.data haystack.data

/-- Accumulator loop of `pySplitWs`: the current word is carried reversed. -/
def splitWsAux : List Char → List Char → List String
  | [], cur => if cur = [] then [] else [⟨cur.reverse⟩]
  | c :: cs, cur =>
    if c.isWhitespace then
      (if cur = [] then splitWsAux cs [] else ⟨cur.reverse⟩ :: splitWsAux cs [])
    else splitWsAux cs (c :: cur)

/-- Python `str.split()` with no argument: split on whitespace runs, dropping
empty pieces. -/
def pySplitWs (s : String) : List String := splitWsAux s.data []

/-! ## Student profile and JSON-database records

`ScholarshipDatabase.matches_profile` reads the profile dict with
`profile.get(key, default)` (default `0` for gpa, `""` for the string fields),
so the profile is embedded as a total structure holding those resolved values.
-/

structure Profile where
  gpa : ℚ
  major : String
  heritage : String
  university : String
  gender : String
  clubs : String
  residency : String
  year : String
  state : String
  discipline : String
deriving DecidableEq

/-- The per-field allowed-value lists of a database record's `requirements`
dict; `none` embeds an absent key. -/
structure Requirements where
  major : Option (List String)
  heritage : Option (List String)
  university : Option (List String)
  gender : Option (List String)
  clubs : Option (List String)
  citizenship : Option (List String)
  year : Option (List String)
  state : Option (List String)
  residency : Option (List String)
deriving DecidableEq

/-- The parts of a JSON database entry read by `matches_profile`
(`scholarship.get("gpa_min", 0)` and `scholarship.get("requirements", {})`),
plus the identity `name`. -/
structure DatabaseScholarship where
  name : String
  gpa_min : ℚ
  requirements : Requirements
deriving DecidableEq

/-- Major block of `matches_profile`: any required major (lowercased) occurring
as a substring of the lowercased profile major. -/
def checkMajor (req : Option (List String)) (studentMajor : String) : Bool :=
  match req with
  | none => true
  | some required => required.any (fun m => pyIn (strLower m) (strLower studentMajor))

/-- Heritage block of `matches_profile`: raw substring test, like the major
block. -/
def checkHeritage (req : Option (List String)) (studentHeritage : String) : Bool :=
  match req with
  | none => true
  | some required => required.any (fun h => pyIn (strLower h) (strLower studentHeritage))

/-- University block of `matches_profile`. -/
def checkUniversity (req : Option (List String)) (studentUniversity : String) : Bool :=
  match req with
  | none => true
  | some required => required.any (fun u => pyIn (strLower u) (strLower studentUniversity))

/-- Gender block of `matches_profile`. -/
def checkGender (req : Option (List String)) (studentGender : String) : Bool :=
  match req with
  | none => true
  | some required => required.any (fun g => pyIn (strLower g) (strLower studentGender))

/-- Clubs block of `matches_profile`. -/
def checkClubs (req : Option (List String)) (studentClubs : String) : Bool :=
  match req with
  | none => true
  | some required => required.any (fun c => pyIn (strLower c) (strLower studentClubs))

/-- Citizenship block of `matches_profile`: if the key is present, an
international student fails regardless of the listed values. -/
def checkCitizenship (req : Option (List String)) (studentResidency : String) : Bool :=
  match req with
  | none => true
  | some _ => !(strLower studentResidency == "international")

/-- Year block of `matches_profile`: exact equality of the lowercased year
against one of the lowercased allowed values. -/
def checkYear (req : Option (List String)) (studentYear : String) : Bool :=
  match req with
  | none => true
  | some required => required.any (fun y => strLower studentYear == strLower y)

/-- State block of `matches_profile`: substring in either direction. -/
def checkState (req : Option (List String)) (studentState : String) : Bool :=
  match req with
  | none => true
  | some required =>
      required.any (fun r =>
        pyIn (strLower r) (strLower studentState) || pyIn (strLower studentState) (strLower r))

/-- Residency-status block of `matches_profile`. -/
def checkResidencyStatus (req : Option (List String)) (studentResidency : String) : Bool :=
  match req with
  | none => true
  | some required => required.any (fun r => pyIn (strLower r) (strLower studentResidency))

/-- `ScholarshipDatabase.matches_profile`: the GPA gate followed by the
per-field requirement blocks, in source order; the source's early `return
False` chain is the short-circuiting conjunction. -/
def DatabaseScholarship.matches_profile (s : DatabaseScholarship) (p : Profile) : Bool :=
  decide (s.gpa_min ≤ p.gpa)
  && checkMajor s.requirements.major p.major
  && checkHeritage s.requirements.heritage p.heritage
  && checkUniversity s.requirements.university p.university
  && checkGender s.requirements.gender p.gender
  && checkClubs s.requirements.clubs p.clubs
  && checkCitizenship s.requirements.citizenship p.residency
  && checkYear s.requirements.year p.year
  && checkState s.requirements.state p.state
  && checkResidencyStatus s.requirements.residency p.residency

/-! ## The whole-token heritage check of `add_diversity_scholarships` -/

/-- Keyword list of the Asian/Pacific-Islander branch of
`add_diversity_scholarships`. -/
def asianHeritageKeywords : List String :=
  ["asian", "pacific", "chinese", "japanese", "korean", "vietnamese", "filipino", "indian"]

/-- The guard of that branch: the lowercased heritage is split into
whitespace-separated words and a word must equal one of the keywords. -/
def asianBranchTriggered (heritage : String) : Bool :=
  (pySplitWs (strLower heritage)).any (fun word => asianHeritageKeywords.contains word)

example : asianBranchTriggered "Asian American" = true := by decide
example : asianBranchTriggered "Caucasian" = false := by decide
example : pyIn "asian" "caucasian" = true := by decide

/-! ## Dates and datetimes

`datetime.strptime` results are midnight datetimes; `datetime.now()` carries a
time of day. A `Date` is a calendar date, a `DateTime` a date plus seconds
since midnight; comparison is lexicographic, as in Python.
-/

structure Date where
  year : Nat
  month : Nat
  day : Nat
deriving DecidableEq

structure DateTime where
  date : Date
  sec : Nat
deriving DecidableEq

/-- Strict calendar order on dates (Python `datetime` comparison restricted to
midnight values). -/
def dateLtB (a b : Date) : Bool :=
  if a.year ≠ b.year then decide (a.year < b.year)
  else if a.month ≠ b.month then decide (a.month < b.month)
  else decide (a.day < b.day)

/-- `now > d` where `d` is a midnight datetime: strictly later date, or the
same date with a nonzero time of day. -/
def dtAfter (now : DateTime) (d : Date) : Bool :=
  dateLtB d now.date || (d == now.date && decide (0 < now.sec))

/-- Gregorian leap-year rule (as validated by `datetime`). -/
def isLeap (y : Nat) : Bool :=
  y % 4 == 0 && (y % 100 != 0 || y % 400 == 0)

def daysInMonth (y m : Nat) : Nat :=
  if m == 2 then (if isLeap y then 29 else 28)
  else if m == 4 || m == 6 || m == 9 || m == 11 then 30
  else 31

/-- The validation `datetime(year, month, day)` performs: a parse producing an
impossible date (e.g. February 30) raises `ValueError`, which the parser treats
as a format mismatch. -/
def mkValidDate (y m d : Nat) : Option Date :=
  if 1 ≤ y ∧ 1 ≤ m ∧ m ≤ 12 ∧ 1 ≤ d ∧ d ≤ daysInMonth y m then some ⟨y, m, d⟩ else none

/-- Rata-die style day number (days-from-civil algorithm); it agrees with
Python `date.toordinal` up to a constant, which cancels in differences. -/
def toRD (dt : Date) : Int :=
  let y : Int := if dt.month ≤ 2 then (dt.year : Int) - 1 else (dt.year : Int)
  let era : Int := Int.fdiv y 400
  let yoe : Int := y - era * 400
  let mp : Int := Int.emod ((dt.month : Int) + 9) 12
  let doy : Int := Int.fdiv (153 * mp + 2) 5 + (dt.day : Int) - 1
  let doe : Int := yoe * 365 + Int.fdiv yoe 4 - Int.fdiv yoe 100 + doy
  era * 146097 + doe - 719468

/-- `(deadline_date - self.today).days`: `timedelta.days` is the floor of the
signed difference in days, where `deadline_date` is a midnight datetime and
`today` carries a time of day. -/
def daysBetween (d : Date) (now : DateTime) : Int :=
  Int.fdiv ((toRD d - toRD now.date) * 86400 - (now.sec : Int)) 86400

example : toRD ⟨2030, 1, 1⟩ - toRD ⟨2025, 10, 12⟩ = 1542 := by decide
example : daysBetween ⟨2030, 1, 1⟩ ⟨⟨2025, 10, 12⟩, 3600⟩ = 1541 := by decide

/-! ## Python `round(x, 2)`

Python rounds half to even; the embedding idealizes the binary-float value as
the exact rational. All concrete scores in this development are exact
multiples of 1/250, so no tie behavior is load-bearing.
-/

/-- Round a rational to the nearest integer, half to even. -/
def roundHalfEven (y : ℚ) : ℤ :=
  if y - ⌊y⌋ < 1/2 then ⌊y⌋
  else if 1/2 < y - ⌊y⌋ then ⌊y⌋ + 1
  else if ⌊y⌋ % 2 = 0 then ⌊y⌋ else ⌊y⌋ + 1

/-- Python `round(x, 2)`. -/
def pyRound2 (x : ℚ) : ℚ := (roundHalfEven (x * 100) : ℚ) / 100

theorem roundHalfEven_intCast (k : ℤ) : roundHalfEven (k : ℚ) = k := by
  unfold roundHalfEven
  rw [Int.floor_intCast]
  norm_num

theorem pyRound2_intCast (k : ℤ) : pyRound2 (k : ℚ) = k := by
  have h : ((k : ℚ) * 100) = ((k * 100 : ℤ) : ℚ) := by push_cast; ring
  unfold pyRound2
  rw [h, roundHalfEven_intCast]
  push_cast
  ring

theorem floor_le_roundHalfEven (y : ℚ) : ⌊y⌋ ≤ roundHalfEven y := by
  unfold roundHalfEven
  repeat' split
  all_goals omega

theorem pyRound2_nonneg {x : ℚ} (hx : 0 ≤ x) : 0 ≤ pyRound2 x := by
  unfold pyRound2
  have h1 : (0 : ℤ) ≤ ⌊x * 100⌋ := Int.floor_nonneg.mpr (by positivity)
  have h2 := floor_le_roundHalfEven (x * 100)
  have h3 : (0 : ℚ) ≤ (roundHalfEven (x * 100) : ℚ) := by exact_mod_cast le_trans h1 h2
  have h4 : (0 : ℚ) ≤ 100 := by norm_num
  exact div_nonneg h3 h4

/-! ## Research opportunities (`research_opportunity_agent.py`) -/

/-- The `ResearchOpportunity` dataclass (the mutable `priority_score` field is
represented by the return value of `calculate_priority`). -/
structure ResearchOpportunity where
  name : String
  organization : String
  research_area : String
  location : String
  compensation_type : String
  stipend_amount : Int
  duration : String
  deadline : String
  gpa_min : ℚ
  gpa_preferred : ℚ
  eligible_years : List String
  majors : List String
  description : String
  application_url : String
  application_tips : String
  housing_provided : Bool
  travel_covered : Bool
  category : String
  competitiveness : String
deriving DecidableEq

/-- Major block of `ResearchOpportunity.matches_profile`: skipped when
`majors` is empty, otherwise some major must be a lowercase substring of the
profile major or of the profile discipline. -/
def opportunityMajorCheck (majors : List String) (studentMajor studentDiscipline : String) : Bool :=
  majors.isEmpty ||
    majors.any (fun m =>
      pyIn (strLower m) (strLower studentMajor) || pyIn (strLower m) (strLower studentDiscipline))

/-- `ResearchOpportunity.matches_profile`: GPA gate, exact (case-sensitive)
year membership when `eligible_years` is nonempty, then the major block. -/
def ResearchOpportunity.matches_profile (o : ResearchOpportunity) (p : Profile) : Bool :=
  decide (o.gpa_min ≤ p.gpa)
  && (o.eligible_years.isEmpty || o.eligible_years.contains p.year)
  && opportunityMajorCheck o.majors p.major p.discipline

/-- The `comp_scores` dict of `ResearchOpportunity.calculate_priority`, with
`.get` default 5. -/
def oppCompScore (c : String) : ℚ :=
  if c = "Low" then 10
  else if c = "Medium" then 7
  else if c = "High" then 4
  else if c = "Very High" then 2
  else 5

/-- `ResearchOpportunity.calculate_priority`: stipend-driven component
`(stipend_amount / 10000) * 40` (only when the stipend is positive), GPA match,
housing/travel benefits, inverse competitiveness; the sum is stored rounded to
two decimals. -/
def ResearchOpportunity.calculate_priority (o : ResearchOpportunity) (studentGpa : ℚ) : ℚ :=
  let stipendScore : ℚ := if 0 < o.stipend_amount then ((o.stipend_amount : ℚ) / 10000) * 40 else 0
  let gpaScore : ℚ := if o.gpa_preferred ≤ studentGpa then 30
    else if o.gpa_min ≤ studentGpa then 15 else 0
  let benefitScore : ℚ :=
    (if o.housing_provided then 10 else 0) + (if o.travel_covered then 10 else 0)
  pyRound2 (stipendScore + gpaScore + benefitScore + oppCompScore o.competitiveness)

/-- The NIH Undergraduate Scholarship Program record, verbatim from
`add_nih_programs`. -/
def nihUGSP : ResearchOpportunity where
  name := "NIH Undergraduate Scholarship Program (UGSP)"
  organization := "National Institutes of Health"
  research_area := "Biomedical, Behavioral, Social Sciences"
  location := "NIH Campus + Your University"
  compensation_type := "Stipend + Tuition"
  stipend_amount := 20000
  duration := "Summer + Academic Year (up to 4 years)"
  deadline := "February 28, 2026"
  gpa_min := 3.5
  gpa_preferred := 3.8
  eligible_years := ["Sophomore", "Junior"]
  majors := ["Biology", "Chemistry", "Pre-Med", "Public Health"]
  description := "Prestigious scholarship with paid research and service commitment"
  application_url := "https://www.training.nih.gov/programs/ugsp"
  application_tips := "Service commitment required, from disadvantaged backgrounds priority"
  housing_provided := true
  travel_covered := true
  category := "Federal Research"
  competitiveness := "Very High"

theorem oppCompScore_veryHigh : oppCompScore "Very High" = 2 := by
  unfold oppCompScore
  rw [if_neg (by decide), if_neg (by decide), if_neg (by decide), if_pos rfl]

example : nihUGSP.calculate_priority 3.9 = 132 := by
  norm_num [ResearchOpportunity.calculate_priority, nihUGSP, oppCompScore_veryHigh]
  rw [show (132 : ℚ) = ((132 : ℤ) : ℚ) from by norm_num]
  exact pyRound2_intCast 132

/-! ## `parse_deadline` (`scholarship_research_agent_dynamic.py`)

The source first tries the `strptime` formats `'%B %d, %Y'`, `'%b %d, %Y'`,
`'%m/%d/%Y'`, `'%Y-%m-%d'`, `'%B %Y'`, `'%b %Y'` in order, then falls back to
the hardcoded year-2026/2025 month scan. `strptime` matching is embedded
directly: case-insensitive (the input is lowercased), a literal space in the
format matches a nonempty whitespace run, `%Y` is exactly four digits, `%d`
and `%m` are one or two digits in range (with the regex's fallback from a
two-digit to a one-digit match), the whole string must be consumed, and the
resulting date must be a valid calendar date.
-/

/-- Value of an ASCII digit. -/
def digitVal (c : Char) : Option Nat :=
  if c.isDigit then some (c.toNat - 48) else none

/-- Exactly four digits (`%Y`). -/
def parseYear4 : List Char → Option (Nat × List Char)
  | a :: b :: c :: d :: rest =>
    match digitVal a, digitVal b, digitVal c, digitVal d with
    | some x, some y, some z, some w => some (x * 1000 + y * 100 + z * 10 + w, rest)
    | _, _, _, _ => none
  | _ => none

/-- Two digits whose value lies in `[lo, hi]` (the two-digit alternatives of
the `%d`/`%m` regexes). -/
def parseTwoDigit (lo hi : Nat) : List Char → Option (Nat × List Char)
  | a :: b :: rest =>
    match digitVal a, digitVal b with
    | some x, some y =>
      let v := 10 * x + y
      if lo ≤ v ∧ v ≤ hi then some (v, rest) else none
    | _, _ => none
  | _ => none

/-- A single nonzero digit (the one-digit alternative of `%d`/`%m`). -/
def parseOneDigit : List Char → Option (Nat × List Char)
  | a :: rest =>
    match digitVal a with
    | some x => if 1 ≤ x then some (x, rest) else none
    | none => none
  | [] => none

/-- Drop leading whitespace. -/
def skipWsAll : List Char → List Char
  | c :: cs => if c.isWhitespace then skipWsAll cs else c :: cs
  | [] => []

/-- A literal space in a `strptime` format: at least one whitespace character. -/
def skipWs1 : List Char → Option (List Char)
  | c :: cs => if c.isWhitespace then some (skipWsAll cs) else none
  | [] => none

/-- One expected literal character. -/
def litChar (c : Char) : List Char → Option (List Char)
  | d :: rest => if d == c then some rest else none
  | [] => none

/-- Full month names (for `%B`), lowercased. -/
def monthNamesFull : List (String × Nat) :=
  [("january", 1), ("february", 2), ("march", 3), ("april", 4), ("may", 5), ("june", 6),
   ("july", 7), ("august", 8), ("september", 9), ("october", 10), ("november", 11),
   ("december", 12)]

/-- Abbreviated month names (for `%b`), lowercased. -/
def monthNamesAbbrev : List (String × Nat) :=
  [("jan", 1), ("feb", 2), ("mar", 3), ("apr", 4), ("may", 5), ("jun", 6),
   ("jul", 7), ("aug", 8), ("sep", 9), ("oct", 10), ("nov", 11), ("dec", 12)]

/-- Match one name of the table as a prefix (no month name is a prefix of
another, so alternation order does not matter). -/
def matchNameNum : List (String × Nat) → List Char → Option (Nat × List Char)
  | [], _ => none
  | (name, num) :: rest, cs =>
    if listStartsWith name.data cs then some (num, cs.drop name.length)
    else matchNameNum rest cs

/-- Tail of `'%B %d, %Y'` / `'%b %d, %Y'` after the day: literal comma, space,
four-digit year, end of input; then calendar validation. -/
def finishCommaYear (m d : Nat) (cs : List Char) : Option Date :=
  match litChar ',' cs with
  | none => none
  | some r1 =>
    match skipWs1 r1 with
    | none => none
    | some r2 =>
      match parseYear4 r2 with
      | some (y, []) => mkValidDate y m d
      | _ => none

/-- `'%B %d, %Y'` (with the full-name table) and `'%b %d, %Y'` (with the
abbreviated table). -/
def fmtMonthDayYear (table : List (String × Nat)) (cs : List Char) : Option Date :=
  match matchNameNum table cs with
  | none => none
  | some (m, r1) =>
    match skipWs1 r1 with
    | none => none
    | some r2 =>
      ((parseTwoDigit 1 31 r2).bind (fun dv => finishCommaYear m dv.1 dv.2)) <|>
      ((parseOneDigit r2).bind (fun dv => finishCommaYear m dv.1 dv.2))

/-- Tail of `'%m/%d/%Y'` after the month: slash, day, slash, year, end. -/
def finishSlashDayYear (m : Nat) (cs : List Char) : Option Date :=
  match litChar '/' cs with
  | none => none
  | some r1 =>
    let cont := fun (dv : Nat × List Char) =>
      match litChar '/' dv.2 with
      | none => none
      | some r2 =>
        match parseYear4 r2 with
        | some (y, []) => mkValidDate y m dv.1
        | _ => none
    ((parseTwoDigit 1 31 r1).bind cont) <|> ((parseOneDigit r1).bind cont)

/-- `'%m/%d/%Y'`. -/
def fmtSlashMDY (cs : List Char) : Option Date :=
  ((parseTwoDigit 1 12 cs).bind (fun mv => finishSlashDayYear mv.1 mv.2)) <|>
  ((parseOneDigit cs).bind (fun mv => finishSlashDayYear mv.1 mv.2))

/-- Tail of `'%Y-%m-%d'` after the month: dash, day, end. -/
def finishDashDay (y m : Nat) (cs : List Char) : Option Date :=
  match litChar '-' cs with
  | none => none
  | some r1 =>
    let cont := fun (dv : Nat × List Char) =>
      match dv.2 with
      | [] => mkValidDate y m dv.1
      | _ => none
    ((parseTwoDigit 1 31 r1).bind cont) <|> ((parseOneDigit r1).bind cont)

/-- `'%Y-%m-%d'`. -/
def fmtISO (cs : List Char) : Option Date :=
  match parseYear4 cs with
  | none => none
  | some (y, r1) =>
    match litChar '-' r1 with
    | none => none
    | some r2 =>
      ((parseTwoDigit 1 12 r2).bind (fun mv => finishDashDay y mv.1 mv.2)) <|>
      ((parseOneDigit r2).bind (fun mv => finishDashDay y mv.1 mv.2))

/-- `'%B %Y'` / `'%b %Y'`: month name, space, year, end; `%d` defaults to 1. -/
def fmtMonthYear (table : List (String × Nat)) (cs : List Char) : Option Date :=
  match matchNameNum table cs with
  | none => none
  | some (m, r1) =>
    match skipWs1 r1 with
    | none => none
    | some r2 =>
      match parseYear4 r2 with
      | some (y, []) => mkValidDate y m 1
      | _ => none

/-- The `for fmt in formats` loop of `parse_deadline`: first matching format
wins. -/
def tryFormats (s : String) : Option Date :=
  let cs := (strLower s).data
  fmtMonthDayYear monthNamesFull cs <|>
  fmtMonthDayYear monthNamesAbbrev cs <|>
  fmtSlashMDY cs <|>
  fmtISO cs <|>
  fmtMonthYear monthNamesFull cs <|>
  fmtMonthYear monthNamesAbbrev cs

/-- The `month_map` of the `'2026' in deadline_str` branch, in dict insertion
order. -/
def month2026Table : List (String × Nat) :=
  [("January", 1), ("February", 2), ("March", 3), ("April", 4), ("May", 5), ("June", 6),
   ("July", 7), ("August", 8), ("September", 9), ("October", 10), ("November", 11),
   ("December", 12)]

/-- The `month_map` of the `'2025' in deadline_str` branch: only December,
November, October, in dict insertion order. -/
def month2025Table : List (String × Nat) :=
  [("December", 12), ("November", 11), ("October", 10)]

/-- First table entry whose (case-sensitive) name occurs in the raw string. -/
def findMonthIn (s : String) : List (String × Nat) → Option Nat
  | [] => none
  | (name, num) :: rest => if pyIn name s then some num else findMonthIn s rest

/-- The month/year fallback of `parse_deadline`: fires only for the hardcoded
year substrings `'2026'` and `'2025'`. -/
def fallbackMonthYear (s : String) : Option Date :=
  if pyIn "2026" s then (findMonthIn s month2026Table).map (fun m => ⟨2026, m, 1⟩)
  else if pyIn "2025" s then (findMonthIn s month2025Table).map (fun m => ⟨2025, m, 1⟩)
  else none

/-- `parse_deadline`: exact formats first, then the hardcoded fallback; every
failure path returns `none` (the source's blanket `except` never sees an
exception escape, so the embedding is total). -/
def parse_deadline (s : String) : Option Date :=
  match tryFormats s with
  | some d => some d
  | none => fallbackMonthYear s

example : parse_deadline "March 15, 2026" = some ⟨2026, 3, 15⟩ := by decide
example : parse_deadline "Mar 5, 2026" = some ⟨2026, 3, 5⟩ := by decide
example : parse_deadline "3/15/2026" = some ⟨2026, 3, 15⟩ := by decide
example : parse_deadline "2026-03-15" = some ⟨2026, 3, 15⟩ := by decide
example : parse_deadline "March 2026" = some ⟨2026, 3, 1⟩ := by decide
example : parse_deadline "February 30, 2026" = some ⟨2026, 2, 1⟩ := by decide
example : parse_deadline "February 30, 2024" = none := by decide
example : parse_deadline "Rolling" = none := by decide
example : parse_deadline "Varies" = none := by decide
example : parse_deadline "" = none := by decide
example : parse_deadline "Early March 2026" = some ⟨2026, 3, 1⟩ := by decide
example : parse_deadline "Early March 2025" = none := by decide
example : parse_deadline "Early March 2024" = none := by decide
example : parse_deadline "November 2025" = some ⟨2025, 11, 1⟩ := by decide
example : parse_deadline "January 1, 2030" = some ⟨2030, 1, 1⟩ := by decide

/-! ## Scholarships (`scholarship_research_agent_dynamic.py`) -/

/-- The `Scholarship` dataclass. -/
structure Scholarship where
  name : String
  amount_min : Int
  amount_max : Int
  amount_display : String
  deadline : String
  deadline_date : Option Date
  min_gpa : ℚ
  recommended_gpa : ℚ
  eligibility : String
  essay_required : Bool
  essay_word_count : Int
  rec_letters_required : Int
  interview_required : Bool
  competitiveness : String
  application_url : String
  notes : String
  renewable : Bool
  category : String
  estimated_hours : ℚ
  priority_score : ℚ
  days_until_deadline : Int
  date_researched : String
deriving DecidableEq

/-- Award-amount component of `calculate_priority_score` (0-40), on the
average of `amount_min` and `amount_max`. -/
def amountScore (amount_min amount_max : Int) : ℚ :=
  let avg : ℚ := ((amount_min : ℚ) + (amount_max : ℚ)) / 2
  if 10000 ≤ avg then 40
  else if 5000 ≤ avg then 30
  else if 2000 ≤ avg then 20
  else 10

/-- Deadline-urgency component (0-30). -/
def deadlineUrgencyScore (days : Int) : ℚ :=
  if days ≤ 30 then 30
  else if days ≤ 60 then 25
  else if days ≤ 90 then 20
  else if days ≤ 180 then 15
  else 10

/-- GPA-match component (0-20). -/
def gpaMatchScore (userGpa minGpa recommendedGpa : ℚ) : ℚ :=
  if recommendedGpa ≤ userGpa then 20
  else if minGpa ≤ userGpa then 15
  else 5

/-- The `comp_scores` dict of `calculate_priority_score`, with `.get`
default 5. -/
def schCompScore (c : String) : ℚ :=
  if c = "Low" then 10
  else if c = "Medium" then 7
  else if c = "High" then 5
  else if c = "Very High" then 3
  else 5

/-- `DynamicScholarshipAgent.calculate_priority_score`: the four components
summed, rounded to two decimals. -/
def calculate_priority_score (userGpa : ℚ) (s : Scholarship) : ℚ :=
  pyRound2 (amountScore s.amount_min s.amount_max
    + deadlineUrgencyScore s.days_until_deadline
    + gpaMatchScore userGpa s.min_gpa s.recommended_gpa
    + schCompScore s.competitiveness)

/-- Zero-padded two-digit rendering (for `strftime('%Y-%m-%d')`). -/
def pad2 (n : Nat) : String :=
  if n < 10 then "0" ++ toString n else toString n

/-- `strftime('%Y-%m-%d')` on a date. -/
def formatYMD (d : Date) : String :=
  toString d.year ++ "-" ++ pad2 d.month ++ "-" ++ pad2 d.day

/-- `DynamicScholarshipAgent.add_scholarship`: parses the deadline, derives
`days_until_deadline` (sentinel 999 when the parse fails), builds the record,
and stores its priority score. `userGpa` is the agent's `self.user_gpa` and
`today` its `self.today = datetime.now()`. -/
def add_scholarship (userGpa : ℚ) (today : DateTime)
    (name : String) (amount_min amount_max : Int) (amount_display deadline : String)
    (min_gpa recommended_gpa : ℚ) (eligibility : String)
    (essay_required : Bool) (essay_word_count rec_letters_required : Int)
    (interview_required : Bool) (competitiveness application_url notes : String)
    (renewable : Bool) (category : String) (estimated_hours : ℚ) : Scholarship :=
  let deadline_date := parse_deadline deadline
  let days_until : Int :=
    match deadline_date with
    | some d => daysBetween d today
    | none => 999
  let s : Scholarship :=
    { name := name, amount_min := amount_min, amount_max := amount_max,
      amount_display := amount_display, deadline := deadline,
      deadline_date := deadline_date, min_gpa := min_gpa,
      recommended_gpa := recommended_gpa, eligibility := eligibility,
      essay_required := essay_required, essay_word_count := essay_word_count,
      rec_letters_required := rec_letters_required,
      interview_required := interview_required, competitiveness := competitiveness,
      application_url := application_url, notes := notes, renewable := renewable,
      category := category, estimated_hours := estimated_hours,
      priority_score := 0, days_until_deadline := days_until,
      date_researched := formatYMD today.date }
  { s with priority_score := calculate_priority_score userGpa s }

/-- The rolling/ongoing keyword list of `Scholarship.is_expired`. -/
def rollingKeywords : List String :=
  ["rolling", "varies", "multiple deadlines", "ongoing"]

/-- `Scholarship.is_expired`: records without a parsed date and records whose
raw deadline string (lowercased) is a rolling keyword are never expired;
otherwise expired when `datetime.now()` is strictly after the midnight
deadline. -/
def Scholarship.is_expired (s : Scholarship) (now : DateTime) : Bool :=
  match s.deadline_date with
  | none => false
  | some d =>
    if rollingKeywords.contains (strLower s.deadline) then false
    else dtAfter now d

/-- The expiry pass of `research_scholarships`:
`[s for s in self.scholarships if not s.is_expired()]`. -/
def filterExpired (now : DateTime) (l : List Scholarship) : List Scholarship :=
  l.filter (fun s => !(s.is_expired now))

/-- The deduplication loop of `research_scholarships`, with the `seen_names`
set carried as a list. -/
def dedupAux : List Scholarship → List String → List Scholarship
  | [], _ => []
  | s :: rest, seen =>
    if seen.contains s.name then dedupAux rest seen
    else s :: dedupAux rest (s.name :: seen)

/-- `seen_names = set(); unique = []; for s in self.scholarships: ...` -/
def dedup (l : List Scholarship) : List Scholarship := dedupAux l []

/-- `sort_by_deadline`: `sorted(self.scholarships, key=lambda x:
x.days_until_deadline)`. Python's `sorted` is stable, and a stable sort by a
total preorder is unique, so it is embedded as an insertion sort. -/
def sort_by_deadline (l : List Scholarship) : List Scholarship :=
  List.insertionSort (fun a b => a.days_until_deadline ≤ b.days_until_deadline) l

/-- `get_urgent_deadlines(days=30)`. -/
def get_urgent_deadlines (l : List Scholarship) (days : Int := 30) : List Scholarship :=
  l.filter (fun s => decide (s.days_until_deadline ≤ days) && decide (0 < s.days_until_deadline))

/-! ## Concrete records used by counterexamples and witnesses -/

/-- A database record whose only requirement is the heritage list
`["Asian"]`. -/
def heritageReqSch : DatabaseScholarship :=
  ⟨"Asian Heritage Award", 0, ⟨none, some ["Asian"], none, none, none, none, none, none, none⟩⟩

/-- A profile whose heritage contains `asian` only inside `Caucasian`. -/
def caucasianProfile : Profile :=
  ⟨0, "", "Caucasian", "", "", "", "", "", "", ""⟩

/-- A database record whose only requirement is the major list
`["Computer"]`. -/
def majorReqSch : DatabaseScholarship :=
  ⟨"Computing Award", 0, ⟨some ["Computer"], none, none, none, none, none, none, none, none⟩⟩

/-- A profile whose discipline (but not major) mentions computing. -/
def disciplineProfile : Profile :=
  ⟨0, "Undeclared", "", "", "", "", "", "", "", "Computer Science"⟩

/-- A database record with an empty major list. -/
def emptyMajorListSch : DatabaseScholarship :=
  ⟨"Empty Major List Award", 0, ⟨some [], none, none, none, none, none, none, none, none⟩⟩

/-- A database record with no requirement fields at all. -/
def noRequirementSch : DatabaseScholarship :=
  ⟨"No Requirement Award", 0, ⟨none, none, none, none, none, none, none, none, none⟩⟩

/-- A generic profile for the witnesses. -/
def plainProfile : Profile :=
  ⟨0, "Engineering", "", "", "", "", "", "Sophomore", "", ""⟩

/-! ## C1: heritage matching -/

/-- C1 counterexample: the claim says an allowed heritage value occurring only
as a proper substring of a longer word (here `asian` inside `Caucasian`) does
not satisfy the heritage requirement, yet `matches_profile` accepts this
profile: the eligibility check's heritage criterion is a raw substring test. -/
theorem heritage_substring_counterexample :
    heritageReqSch.matches_profile caucasianProfile = true
    ∧ (pySplitWs (strLower caucasianProfile.heritage)).contains (strLower "Asian") = false := by
  constructor
  · simp only [DatabaseScholarship.matches_profile, Bool.and_eq_true, decide_eq_true_eq]
    repeat' apply And.intro
    all_goals first
      | exact le_refl 0
      | decide
  · decide

/-- C1 amended: the heritage criterion of the `RequirementSet` eligibility
check (`ScholarshipDatabase.matches_profile`) succeeds exactly when some
allowed value is a raw case-insensitive substring of the profile heritage, so
`asian` inside `caucasian` does satisfy it; whole-token matching is applied
only by the hardcoded Asian/Pacific branch of `add_diversity_scholarships`,
which does not fire for `Caucasian`. -/
theorem heritage_matching_amended :
    (∀ (required : List String) (studentHeritage : String),
      checkHeritage (some required) studentHeritage = true ↔
        ∃ h ∈ required, pyIn (strLower h) (strLower studentHeritage) = true)
    ∧ asianBranchTriggered "Caucasian" = false
    ∧ asianBranchTriggered "Asian American" = true
    ∧ pyIn (strLower "Asian") (strLower "Caucasian") = true := by
  refine ⟨?_, by decide, by decide, by decide⟩
  intro required studentHeritage
  simp [checkHeritage, List.any_eq_true]

/-! ## C2: major matching -/

/-- C2 counterexample: the claim says the major criterion succeeds when an
allowed value is a substring of the profile's discipline, but
`ScholarshipDatabase.matches_profile` only consults the major field: a profile
with major `Undeclared` and discipline `Computer Science` is rejected by a
record requiring `Computer`. -/
theorem major_ignores_discipline_counterexample :
    majorReqSch.matches_profile disciplineProfile = false
    ∧ pyIn (strLower "Computer") (strLower disciplineProfile.discipline) = true := by
  constructor
  · have hb : checkMajor majorReqSch.requirements.major disciplineProfile.major = false := by
      decide
    simp [DatabaseScholarship.matches_profile, hb]
  · decide

/-- C2 amended: the database loader's major criterion succeeds iff some
allowed value is a case-insensitive substring of the profile's major field
alone (discipline is not consulted); the major-OR-discipline behavior holds
only in `ResearchOpportunity.matches_profile`. -/
theorem major_criterion_amended :
    (∀ (required : List String) (studentMajor : String),
      checkMajor (some required) studentMajor = true ↔
        ∃ m ∈ required, pyIn (strLower m) (strLower studentMajor) = true)
    ∧ (∀ (majors : List String) (studentMajor studentDiscipline : String),
      opportunityMajorCheck majors studentMajor studentDiscipline = true ↔
        (majors = [] ∨ ∃ m ∈ majors,
          pyIn (strLower m) (strLower studentMajor) = true ∨
          pyIn (strLower m) (strLower studentDiscipline) = true)) := by
  constructor
  · intro required studentMajor
    simp [checkMajor, List.any_eq_true]
  · intro majors studentMajor studentDiscipline
    simp [opportunityMajorCheck, List.any_eq_true, List.isEmpty_iff]

/-! ## C5: year matching -/

/-- C5: the year criterion succeeds iff the profile year equals, case
insensitively, one of the allowed values; in particular the `Senior` vs
`High School Senior` pair does not match even though one is a substring of the
other. -/
theorem year_requirement_exact :
    (∀ (required : List String) (studentYear : String),
      checkYear (some required) studentYear = true ↔
        ∃ y ∈ required, strLower studentYear = strLower y)
    ∧ checkYear (some ["High School Senior"]) "Senior" = false
    ∧ checkYear (some ["Senior"]) "High School Senior" = false
    ∧ pyIn (strLower "Senior") (strLower "High School Senior") = true
    ∧ checkYear (some ["High School Senior"]) "high school SENIOR" = true := by
  refine ⟨?_, by decide, by decide, by decide, by decide⟩
  intro required studentYear
  simp [checkYear, List.any_eq_true]

/-! ## C10: empty requirement lists -/

/-- C10: a requirement field present with an empty allowed-value list rejects
every profile, while a record with no requirement fields accepts any profile
passing the GPA gate. -/
theorem empty_requirement_list_matches_none :
    ∀ (s : DatabaseScholarship) (p : Profile),
      ((s.requirements.major = some [] ∨ s.requirements.heritage = some [] ∨
        s.requirements.university = some [] ∨ s.requirements.gender = some [] ∨
        s.requirements.clubs = some [] ∨ s.requirements.year = some [] ∨
        s.requirements.state = some [] ∨ s.requirements.residency = some []) →
        s.matches_profile p = false)
      ∧ (s.requirements = ⟨none, none, none, none, none, none, none, none, none⟩ →
         s.gpa_min ≤ p.gpa → s.matches_profile p = true) := by
  intro s p
  constructor
  · rintro (h | h | h | h | h | h | h | h) <;>
      simp [DatabaseScholarship.matches_profile, h, checkMajor, checkHeritage,
        checkUniversity, checkGender, checkClubs, checkYear, checkState,
        checkResidencyStatus]
  · intro hreq hgpa
    simp [DatabaseScholarship.matches_profile, hreq, checkMajor, checkHeritage,
      checkUniversity, checkGender, checkClubs, checkCitizenship, checkYear,
      checkState, checkResidencyStatus, hgpa]

/-- C10 witness: both parts at concrete records. -/
theorem empty_requirement_list_matches_none_witness :
    emptyMajorListSch.matches_profile plainProfile = false
    ∧ noRequirementSch.matches_profile plainProfile = true :=
  ⟨(empty_requirement_list_matches_none emptyMajorListSch plainProfile).1 (Or.inl rfl),
   (empty_requirement_list_matches_none noRequirementSch plainProfile).2 rfl (le_refl 0)⟩

/-! ## C3: score ranges -/

/-- Every two-decimal rounding is an integer number of hundredths. -/
theorem pyRound2_twoDecimal (x : ℚ) : ∃ k : ℤ, pyRound2 x = (k : ℚ) / 100 :=
  ⟨roundHalfEven (x * 100), rfl⟩

theorem amountScore_cases (a b : Int) :
    ∃ k : ℤ, amountScore a b = (k : ℚ) ∧ 10 ≤ k ∧ k ≤ 40 := by
  simp only [amountScore]
  repeat' split
  exacts [⟨40, by norm_num⟩, ⟨30, by norm_num⟩, ⟨20, by norm_num⟩, ⟨10, by norm_num⟩]

theorem deadlineUrgencyScore_cases (d : Int) :
    ∃ k : ℤ, deadlineUrgencyScore d = (k : ℚ) ∧ 10 ≤ k ∧ k ≤ 30 := by
  simp only [deadlineUrgencyScore]
  repeat' split
  exacts [⟨30, by norm_num⟩, ⟨25, by norm_num⟩, ⟨20, by norm_num⟩, ⟨15, by norm_num⟩,
    ⟨10, by norm_num⟩]

theorem gpaMatchScore_cases (g mn rc : ℚ) :
    ∃ k : ℤ, gpaMatchScore g mn rc = (k : ℚ) ∧ 5 ≤ k ∧ k ≤ 20 := by
  simp only [gpaMatchScore]
  repeat' split
  exacts [⟨20, by norm_num⟩, ⟨15, by norm_num⟩, ⟨5, by norm_num⟩]

theorem schCompScore_cases (c : String) :
    ∃ k : ℤ, schCompScore c = (k : ℚ) ∧ 3 ≤ k ∧ k ≤ 10 := by
  simp only [schCompScore]
  repeat' split
  exacts [⟨10, by norm_num⟩, ⟨7, by norm_num⟩, ⟨5, by norm_num⟩, ⟨3, by norm_num⟩,
    ⟨5, by norm_num⟩]

/-- C3 amended: the scholarship scorer always returns a two-decimal value in
[0, 100] (in fact in [28, 100]); the research-opportunity scorer returns a
two-decimal value that is nonnegative but is not bounded by 100, because its
stipend component is uncapped. -/
theorem priority_score_range_amended :
    (∀ (userGpa : ℚ) (s : Scholarship),
      0 ≤ calculate_priority_score userGpa s
      ∧ calculate_priority_score userGpa s ≤ 100
      ∧ ∃ k : ℤ, calculate_priority_score userGpa s = (k : ℚ) / 100)
    ∧ (∀ (o : ResearchOpportunity) (studentGpa : ℚ),
      0 ≤ o.calculate_priority studentGpa
      ∧ ∃ k : ℤ, o.calculate_priority studentGpa = (k : ℚ) / 100) := by
  constructor
  · intro userGpa s
    obtain ⟨k1, e1, l1, u1⟩ := amountScore_cases s.amount_min s.amount_max
    obtain ⟨k2, e2, l2, u2⟩ := deadlineUrgencyScore_cases s.days_until_deadline
    obtain ⟨k3, e3, l3, u3⟩ := gpaMatchScore_cases userGpa s.min_gpa s.recommended_gpa
    obtain ⟨k4, e4, l4, u4⟩ := schCompScore_cases s.competitiveness
    have hsum : amountScore s.amount_min s.amount_max
        + deadlineUrgencyScore s.days_until_deadline
        + gpaMatchScore userGpa s.min_gpa s.recommended_gpa
        + schCompScore s.competitiveness = ((k1 + k2 + k3 + k4 : ℤ) : ℚ) := by
      rw [e1, e2, e3, e4]
      push_cast
      ring
    unfold calculate_priority_score
    rw [hsum, pyRound2_intCast]
    refine ⟨?_, ?_, ⟨(k1 + k2 + k3 + k4) * 100, ?_⟩⟩
    · exact_mod_cast (by omega : (0 : ℤ) ≤ k1 + k2 + k3 + k4)
    · exact_mod_cast (by omega : (k1 + k2 + k3 + k4 : ℤ) ≤ 100)
    · push_cast
      ring
  · intro o studentGpa
    constructor
    · simp only [ResearchOpportunity.calculate_priority]
      apply pyRound2_nonneg
      apply add_nonneg
      · apply add_nonneg
        · apply add_nonneg
          · split
            · rename_i h
              have hc : (0 : ℚ) < (o.stipend_amount : ℚ) := by exact_mod_cast h
              positivity
            · norm_num
          · repeat' split
            all_goals norm_num
        · apply add_nonneg
          · split <;> norm_num
          · split <;> norm_num
      · simp only [oppCompScore]
        repeat' split
        all_goals norm_num
    · simp only [ResearchOpportunity.calculate_priority]
      exact pyRound2_twoDecimal _

/-- C3 counterexample: the NIH UGSP catalog record (stipend 20000) scores 132
for a 3.9-GPA student, outside [0, 100]. -/
theorem opportunity_score_exceeds_100 :
    nihUGSP.calculate_priority 3.9 = 132 ∧ ¬(nihUGSP.calculate_priority 3.9 ≤ 100) := by
  have h : nihUGSP.calculate_priority 3.9 = 132 := by
    norm_num [ResearchOpportunity.calculate_priority, nihUGSP, oppCompScore_veryHigh]
    rw [show (132 : ℚ) = ((132 : ℤ) : ℚ) from by norm_num]
    exact pyRound2_intCast 132
  refine ⟨h, by rw [h]; norm_num⟩

/-! ## C4: the month/year fallback -/

/-- Claim's precondition, stated from the spec: the string contains a 4-digit
whitespace-separated token of digits. -/
def specHasYearToken (s : String) : Bool :=
  (pySplitWs s).any (fun t => t.length == 4 && t.data.all Char.isDigit)

/-- Claim's precondition, stated from the spec: the string contains a
recognizable (full, case-insensitive) month name. -/
def specHasMonthName (s : String) : Bool :=
  monthNamesFull.any (fun mn => pyIn mn.1 (strLower s))

/-- C4 counterexample: `Early March 2024` matches no exact format, has a
4-digit year token and a month name, yet the normalizer returns `none` instead
of March 1, 2024 — the fallback is hardcoded to the years 2026 and 2025. -/
theorem deadline_fallback_counterexample :
    tryFormats "Early March 2024" = none
    ∧ specHasYearToken "Early March 2024" = true
    ∧ specHasMonthName "Early March 2024" = true
    ∧ parse_deadline "Early March 2024" = none := by
  refine ⟨by decide, by decide, by decide, by decide⟩

/-- C4 amended: when no exact format matches, the fallback fires only for
strings containing the literal year `2026` (all twelve months, day 1) or
`2025` (October, November, December only); for every other string — whatever
4-digit year and month name it contains — the normalizer returns `none`. -/
theorem deadline_fallback_amended :
    (∀ s : String, tryFormats s = none → pyIn "2026" s = false → pyIn "2025" s = false →
        parse_deadline s = none)
    ∧ parse_deadline "Early March 2026" = some ⟨2026, 3, 1⟩
    ∧ parse_deadline "Early March 2025" = none
    ∧ parse_deadline "Early November 2025" = some ⟨2025, 11, 1⟩ := by
  refine ⟨?_, by decide, by decide, by decide⟩
  intro s h1 h2 h3
  simp [parse_deadline, h1, fallbackMonthYear, h2, h3]

/-- C4 amended witness: a concrete non-hardcoded year. -/
theorem deadline_fallback_amended_witness :
    parse_deadline "Early April 2024" = none :=
  deadline_fallback_amended.1 "Early April 2024" (by decide) (by decide) (by decide)

/-! ## C9: total parsing and sentinel annotation -/

/-- C9: the embedded normalizer is total (every failure path returns `none`
rather than raising), and whenever no exact format and no fallback rule
applies, `add_scholarship` annotates the record with a null `deadline_date`
and the sentinel 999. -/
theorem parse_failure_sentinel_annotation :
    ∀ (userGpa : ℚ) (today : DateTime) (name : String) (amount_min amount_max : Int)
      (amount_display deadline : String) (min_gpa recommended_gpa : ℚ) (eligibility : String)
      (essay_required : Bool) (essay_word_count rec_letters_required : Int)
      (interview_required : Bool) (competitiveness application_url notes : String)
      (renewable : Bool) (category : String) (estimated_hours : ℚ),
      tryFormats deadline = none → fallbackMonthYear deadline = none →
      (add_scholarship userGpa today name amount_min amount_max amount_display deadline
        min_gpa recommended_gpa eligibility essay_required essay_word_count
        rec_letters_required interview_required competitiveness application_url notes
        renewable category estimated_hours).deadline_date = none
      ∧ (add_scholarship userGpa today name amount_min amount_max amount_display deadline
        min_gpa recommended_gpa eligibility essay_required essay_word_count
        rec_letters_required interview_required competitiveness application_url notes
        renewable category estimated_hours).days_until_deadline = 999 := by
  intro userGpa today name amount_min amount_max amount_display deadline min_gpa
    recommended_gpa eligibility essay_required essay_word_count rec_letters_required
    interview_required competitiveness application_url notes renewable category
    estimated_hours h1 h2
  constructor <;> simp [add_scholarship, parse_deadline, h1, h2]

/-- C9 witness: the empty deadline string. -/
theorem parse_failure_sentinel_annotation_witness :
    (add_scholarship 3.5 ⟨⟨2025, 10, 12⟩, 3600⟩ "Example Award" 1000 2000 "$1,000-$2,000" ""
      3.0 3.5 "Anyone" false 0 0 false "Medium" "" "" false "General" 2.0).deadline_date = none
    ∧ (add_scholarship 3.5 ⟨⟨2025, 10, 12⟩, 3600⟩ "Example Award" 1000 2000 "$1,000-$2,000" ""
      3.0 3.5 "Anyone" false 0 0 false "Medium" "" "" false "General" 2.0).days_until_deadline
        = 999 :=
  parse_failure_sentinel_annotation 3.5 ⟨⟨2025, 10, 12⟩, 3600⟩ "Example Award" 1000 2000
    "$1,000-$2,000" "" 3.0 3.5 "Anyone" false 0 0 false "Medium" "" "" false "General" 2.0
    (by decide) (by decide)

/-! ## C6: the expiry pass -/

/-- `is_expired` holds exactly when the record has a parsed deadline, its raw
deadline string is not a rolling keyword, and `now` is strictly after the
deadline. -/
theorem is_expired_iff (s : Scholarship) (now : DateTime) :
    s.is_expired now = true ↔
      ∃ d, s.deadline_date = some d
        ∧ rollingKeywords.contains (strLower s.deadline) = false
        ∧ dtAfter now d = true := by
  cases hd : s.deadline_date with
  | none => simp [Scholarship.is_expired, hd]
  | some d =>
    cases hk : rollingKeywords.contains (strLower s.deadline) with
    | true =>
      simp only [Scholarship.is_expired, hd]
      rw [hk]
      simp
    | false =>
      simp only [Scholarship.is_expired, hd]
      rw [hk]
      simp

/-- C6: a record survives the expiry pass iff it was in the input and it is
not the case that it has a concrete `deadline_date`, a non-rolling raw
deadline string, and `now` strictly after the deadline; in particular records
with a null date or a rolling keyword are always retained. -/
theorem expiry_pass_characterization :
    ∀ (now : DateTime) (l : List Scholarship) (s : Scholarship),
      s ∈ filterExpired now l ↔
        (s ∈ l ∧ ¬(∃ d, s.deadline_date = some d
          ∧ rollingKeywords.contains (strLower s.deadline) = false
          ∧ dtAfter now d = true)) := by
  intro now l s
  rw [filterExpired, List.mem_filter]
  constructor
  · rintro ⟨hl, hb⟩
    refine ⟨hl, fun hex => ?_⟩
    rw [(is_expired_iff s now).mpr hex] at hb
    simp at hb
  · rintro ⟨hl, hnex⟩
    refine ⟨hl, ?_⟩
    cases hb : s.is_expired now with
    | false => simp [hb]
    | true => exact absurd ((is_expired_iff s now).mp hb) hnex

/-! ## C7: deduplication -/

theorem dedupAux_sublist : ∀ (l : List Scholarship) (seen : List String),
    (dedupAux l seen).Sublist l := by
  intro l
  induction l with
  | nil => intro seen; simp [dedupAux]
  | cons x rest ih =>
    intro seen
    simp only [dedupAux]
    split
    · exact (ih seen).cons x
    · exact (ih (x.name :: seen)).cons₂ x

theorem dedupAux_mem_name (s : Scholarship) :
    ∀ (l : List Scholarship) (seen : List String), s ∈ dedupAux l seen →
      seen.contains s.name = false := by
  intro l
  induction l with
  | nil => intro seen h; simp [dedupAux] at h
  | cons x rest ih =>
    intro seen h
    simp only [dedupAux] at h
    split at h
    case isTrue hseen => exact ih seen h
    case isFalse hseen =>
      rw [List.mem_cons] at h
      rcases h with rfl | h
      · cases hc : List.contains seen s.name with
        | false => rfl
        | true => exact absurd hc hseen
      · have h2 := ih (x.name :: seen) h
        simp only [List.contains_cons, Bool.or_eq_false_iff] at h2
        exact h2.2

theorem dedupAux_countP_zero (n : String) :
    ∀ (l : List Scholarship) (seen : List String), seen.contains n = true →
      (dedupAux l seen).countP (fun x => x.name == n) = 0 := by
  intro l seen hn
  rw [List.countP_eq_zero]
  intro s hs
  have h := dedupAux_mem_name s l seen hs
  intro he
  rw [beq_iff_eq] at he
  rw [he] at h
  rw [h] at hn
  simp at hn

theorem dedupAux_countP_le_one (n : String) :
    ∀ (l : List Scholarship) (seen : List String),
      (dedupAux l seen).countP (fun x => x.name == n) ≤ 1 := by
  intro l
  induction l with
  | nil => intro seen; simp [dedupAux]
  | cons x rest ih =>
    intro seen
    simp only [dedupAux]
    split
    · exact ih seen
    · rw [List.countP_cons]
      by_cases hx : x.name = n
      · have hz := dedupAux_countP_zero n rest (x.name :: seen)
          (by simp [List.contains_cons, hx])
        rw [hz, if_pos (by rw [beq_iff_eq]; exact hx)]
      · rw [if_neg (by simp [beq_iff_eq, hx])]
        have := ih (x.name :: seen)
        omega

theorem dedupAux_mem_iff (s : Scholarship) :
    ∀ (l : List Scholarship) (seen : List String),
      s ∈ dedupAux l seen ↔
        (seen.contains s.name = false
          ∧ l.find? (fun x => x.name == s.name) = some s) := by
  intro l
  induction l with
  | nil => intro seen; simp [dedupAux]
  | cons x rest ih =>
    intro seen
    simp only [dedupAux]
    split
    case isTrue hseen =>
      rw [ih seen]
      cases hx : x.name == s.name with
      | true =>
        have hxn : x.name = s.name := by rwa [beq_iff_eq] at hx
        have hc : seen.contains s.name = true := hxn ▸ hseen
        rw [hc]
        simp
      | false =>
        rw [List.find?_cons_of_neg _ (by simp [hx])]
    case isFalse hseen =>
      rw [List.mem_cons, ih (x.name :: seen)]
      cases hx : x.name == s.name with
      | true =>
        have hxn : x.name = s.name := by rwa [beq_iff_eq] at hx
        rw [List.find?_cons_of_pos _ (by simp [hx])]
        have hsc : seen.contains s.name = false := by
          rw [← hxn]
          cases hcc : seen.contains x.name with
          | false => rfl
          | true => exact absurd hcc hseen
        have hcons : (x.name :: seen).contains s.name = true := by
          simp [List.contains_cons, hxn]
        rw [hsc, hcons]
        constructor
        · rintro (rfl | ⟨hfalse, -⟩)
          · exact ⟨rfl, rfl⟩
          · simp at hfalse
        · rintro ⟨-, hsome⟩
          left
          exact (Option.some.inj hsome).symm
      | false =>
        have hxn : x.name ≠ s.name := by
          intro he
          rw [he] at hx
          simp at hx
        rw [List.find?_cons_of_neg _ (by simp [hx])]
        have hsx : (s.name == x.name) = false := beq_eq_false_iff_ne.mpr (Ne.symm hxn)
        have hcons : (x.name :: seen).contains s.name = seen.contains s.name := by
          simp only [List.contains_cons, hsx, Bool.false_or]
        rw [hcons]
        constructor
        · rintro (rfl | h)
          · exact absurd rfl hxn
          · exact h
        · intro h
          right
          exact h

/-- C7: the deduplication pass returns a sublist of the input (so order and
data are preserved); a record is in the output iff it is the first record of
the input bearing its name; each name occurs at most once in the output; and
every name occurring in the input is represented in the output. -/
theorem dedup_first_occurrence :
    ∀ l : List Scholarship,
      (dedup l).Sublist l
      ∧ (∀ s : Scholarship, s ∈ dedup l ↔ l.find? (fun x => x.name == s.name) = some s)
      ∧ (∀ n : String, (dedup l).countP (fun x => x.name == n) ≤ 1)
      ∧ (∀ s : Scholarship, s ∈ l → ∃ t, t ∈ dedup l ∧ t.name = s.name) := by
  intro l
  have hnil : ∀ m : String, ([] : List String).contains m = false := fun _ => rfl
  refine ⟨dedupAux_sublist l [], ?_, ?_, ?_⟩
  · intro s
    rw [dedup, dedupAux_mem_iff s l []]
    simp [hnil]
  · intro n
    exact dedupAux_countP_le_one n l []
  · intro s hs
    have hsome : (l.find? (fun x => x.name == s.name)).isSome := by
      rw [List.find?_isSome]
      exact ⟨s, hs, by simp⟩
    obtain ⟨t, ht⟩ := Option.isSome_iff_exists.mp hsome
    have htP := List.find?_some ht
    have hteq : t.name = s.name := by
      simp only [beq_iff_eq] at htP
      exact htP
    refine ⟨t, ?_, hteq⟩
    rw [dedup, dedupAux_mem_iff t l []]
    refine ⟨hnil t.name, ?_⟩
    rw [hteq]
    exact ht

/-! ## C8: deadline ordering and urgency -/

/-- C8 amended: in the deadline-ascending order, a sentinel-valued record
(999) is never followed by a record with `days_until_deadline` below 999 —
sentinels sort after every record whose day count is smaller, which covers all
deadlines parsed within 999 days; and at the 30-day threshold a sentinel
record is never urgent. -/
theorem sentinel_ordering_amended :
    ∀ l : List Scholarship,
      List.Pairwise
        (fun a b => a.days_until_deadline = 999 → 999 ≤ b.days_until_deadline)
        (sort_by_deadline l)
      ∧ (get_urgent_deadlines l 30).all (fun s => s.days_until_deadline != 999) = true := by
  intro l
  constructor
  · have hs : List.Sorted
        (fun a b : Scholarship => a.days_until_deadline ≤ b.days_until_deadline)
        (sort_by_deadline l) := by
      unfold sort_by_deadline
      letI : IsTotal Scholarship
          (fun a b => a.days_until_deadline ≤ b.days_until_deadline) :=
        ⟨fun a b => Int.le_total _ _⟩
      letI : IsTrans Scholarship
          (fun a b => a.days_until_deadline ≤ b.days_until_deadline) :=
        ⟨fun _ _ _ hab hbc => le_trans hab hbc⟩
      exact List.sorted_insertionSort _ l
    exact hs.imp (fun hab ha => by rw [ha] at hab; exact hab)
  · simp only [get_urgent_deadlines, List.all_eq_true]
    intro s hs
    rw [List.mem_filter] at hs
    obtain ⟨-, hcond⟩ := hs
    simp only [Bool.and_eq_true, decide_eq_true_eq] at hcond
    exact bne_iff_ne.mpr (by omega)

/-- The agent reference instant used by the concrete records: October 12, 2025,
one hour past midnight. -/
def referenceNow : DateTime := ⟨⟨2025, 10, 12⟩, 3600⟩

/-- A rolling-deadline record, built through `add_scholarship` (sentinel 999). -/
def rollingGrant : Scholarship :=
  add_scholarship 3.5 referenceNow "Boilermaker Out-of-State Tuition Grant" 2000 6000
    "$2,000-$6,000" "Rolling" 3.0 3.3 "Out-of-state students, financial need and merit"
    false 0 0 false "Medium" "" "Rolling admissions, apply early" true "Purdue" 2.0

/-- A record with a concrete parsed deadline more than 999 days away, built
through `add_scholarship`. -/
def farDeadlineAward : Scholarship :=
  add_scholarship 3.5 referenceNow "Distant Deadline Award" 1000 1000 "$1,000"
    "January 1, 2030" 3.0 3.5 "Record whose parsed deadline is far in the future"
    false 0 0 false "Medium" "" "" false "General" 1.0

/-- C8 counterexample: the claim says every sentinel record is ordered after
every record with a concrete parsed deadline, but sorting a sentinel record
together with a concrete-deadline record 1541 days out leaves the sentinel
first. -/
theorem sentinel_ordering_counterexample :
    rollingGrant.days_until_deadline = 999
    ∧ rollingGrant.deadline_date = none
    ∧ farDeadlineAward.deadline_date = some ⟨2030, 1, 1⟩
    ∧ farDeadlineAward.days_until_deadline = 1541
    ∧ (sort_by_deadline [rollingGrant, farDeadlineAward]).map (fun s => s.name)
        = [rollingGrant.name, farDeadlineAward.name] := by
  refine ⟨by decide, by decide, by decide, by decide, by decide⟩

/-- First SWE entry (from `add_club_scholarships`). -/
def sweClubScholarship : Scholarship :=
  add_scholarship 3.5 referenceNow "Society of Women Engineers (SWE) Scholarship" 1000 15000
    "$1,000-$15,000" "February 15, 2026" 3.0 3.5 "SWE members or engineering students"
    true 600 2 false "Medium" "" "Multiple scholarships available, open to all genders"
    false "Professional Org" 4.0

/-- A second entry with the same identity key but different data (as a second
catalog source could contribute). -/
def sweDatabaseScholarship : Scholarship :=
  add_scholarship 3.5 referenceNow "Society of Women Engineers (SWE) Scholarship" 2500 10000
    "$2,500-$10,000" "Rolling" 3.0 3.3 "Women pursuing engineering degrees"
    false 0 0 false "Medium" "" "" false "Diversity" 3.0

/-- C7 witness: a duplicate name is still represented after deduplication. -/
theorem dedup_first_occurrence_witness :
    ∃ t, t ∈ dedup [sweClubScholarship, sweDatabaseScholarship]
      ∧ t.name = sweDatabaseScholarship.name :=
  (dedup_first_occurrence [sweClubScholarship, sweDatabaseScholarship]).2.2.2
    sweDatabaseScholarship (List.Mem.tail _ (List.Mem.head _))

/-- C6 witness: a rolling record (null parsed date) survives the expiry pass. -/
theorem expiry_pass_characterization_witness :
    rollingGrant ∈ filterExpired referenceNow [rollingGrant] := by
  apply (expiry_pass_characterization referenceNow [rollingGrant] rollingGrant).mpr
  refine ⟨List.Mem.head _, ?_⟩
  rintro ⟨d, hd, -, -⟩
  have hnone : rollingGrant.deadline_date = none := by decide
  rw [hnone] at hd
  exact Option.noConfusion hd

/-- C8 witness: the far-out concrete record sits at or above the sentinel in
the sorted order, extracted from the pairwise ordering fact. -/
theorem sentinel_ordering_amended_witness :
    999 ≤ farDeadlineAward.days_until_deadline := by
  have h := (sentinel_ordering_amended [rollingGrant, farDeadlineAward]).1
  have hsort : sort_by_deadline [rollingGrant, farDeadlineAward]
      = [rollingGrant, farDeadlineAward] := by rfl
  rw [hsort] at h
  exact (List.pairwise_cons.mp h).1 farDeadlineAward (List.Mem.head _) (by decide)
